import Mathlib

/-!
# Verification of the trusttls certificate lifecycle engine

A shallow embedding, in Lean, of the parts of the `trusttls` Go repository
that the checked claims are about:

* `internal/store/store.go` — the certificate store (`SaveCertificate`,
  `LoadCertPaths`, `DefaultBaseDir`) and the account/credential store
  (`SaveAccount`, `LoadAccount`, `GetDigiCertConfig`,
  `GetDigiCertACMEConfig`);
* `internal/renewal/renewal.go` — the renewal engine (`due`, `RunAll`);
* `internal/acme/digicert.go` — the DigiCert REST provider
  (`signRequest`, `waitForCertificate`);
* `internal/acme/manager.go` — key generation (`generateKey`).

Modelling conventions:

* File-system paths are modelled as lists of path segments (the arguments
  that the Go code hands to `filepath.Join`), so distinct joins are
  distinct keys by construction.
* The file system is a total map from paths to optional contents; fallible
  `os.MkdirAll` / `os.WriteFile` calls are driven by an `FSOps` oracle
  saying which directory creations and file writes succeed, and a failed
  write leaves the map unchanged.
* Byte strings are `List Nat` (each entry `< 256` where it matters).
* `time.Time` / `time.Duration` are `Int` nanoseconds, as in Go.
* Library calls whose internals the code treats as opaque
  (`pem.Decode` + `x509.ParseCertificate` inside `ParseCertExpiry`,
  the network in `getCertificate`, issuance in `renewOne`) are
  parameters of the functions that call them.
* HMAC-SHA-256 and hex encoding (`crypto/hmac`, `crypto/sha256`,
  `encoding/hex`) are implemented concretely below.
-/

namespace TrustTLS

/-- A path is the list of segments handed to `filepath.Join`. -/
abbrev Path := List String

/-- Contents of a stored file: a byte string. -/
abbrev Bytes := List Nat

/-- The file system seen by the certificate store: path → contents. -/
abbrev FS := Path → Option Bytes

/-- Oracle for which `os.MkdirAll` and `os.WriteFile` calls succeed. -/
structure FSOps where
  mkdirOk : Path → Bool
  writeOk : Path → Bool

/-- `os.WriteFile`: on success the file holds exactly the new contents,
on failure the file system is unchanged. -/
def fsWrite (ops : FSOps) (fs : FS) (path : Path) (content : Bytes) :
    Bool × FS :=
  if ops.writeOk path then
    (true, fun p => if p = path then some content else fs p)
  else
    (false, fs)

/-- `store.DefaultBaseDir`: the user's home directory joined with
`.trusttls`, or the fixed fallback when the home directory cannot be
resolved (`os.UserHomeDir` failing is the `none` case). -/
def DefaultBaseDir (home : Option String) : String :=
  match home with
  | none => "/var/lib/trusttls"
  | some h => h ++ "/.trusttls"

/-- `certificate.Resource` (the fields `store.SaveCertificate` reads). -/
structure CertResource where
  Domain : String
  Certificate : Bytes
  PrivateKey : Bytes
  IssuerCertificate : Bytes
deriving Repr, DecidableEq

/-- `store.LoadCertPaths`: the four live-artifact paths, in the source's
return order (cert, key, chain, fullchain). -/
def LoadCertPaths (baseDir domain : String) : Path × Path × Path × Path :=
  ([baseDir, "live", domain, "cert.pem"],
   [baseDir, "live", domain, "privkey.pem"],
   [baseDir, "live", domain, "chain.pem"],
   [baseDir, "live", domain, "fullchain.pem"])

/-- `store.SaveCertificate`, as state-passing over `FS`.  The `timestamp`
argument stands for `time.Now().Format("20060102-150405")`.  Mirrors the
source line by line: the four live writes (key only when non-empty) are
fatal, the archive directory creation is checked with an early `return`,
and the four archive writes discard their errors. -/
def SaveCertificate (ops : FSOps) (fs : FS) (baseDir domain : String)
    (cert : CertResource) (timestamp : String) :
    (Except String String) × FS :=
  let dir : Path := [baseDir, "live", domain]
  if !(ops.mkdirOk dir) then (.error "mkdir live failed", fs) else
  let (ok, fs) := fsWrite ops fs (dir ++ ["cert.pem"]) cert.Certificate
  if !ok then (.error "write cert.pem failed", fs) else
  let (ok, fs) := fsWrite ops fs (dir ++ ["chain.pem"]) cert.IssuerCertificate
  if !ok then (.error "write chain.pem failed", fs) else
  let (ok, fs) := fsWrite ops fs (dir ++ ["fullchain.pem"])
      (cert.Certificate ++ cert.IssuerCertificate)
  if !ok then (.error "write fullchain.pem failed", fs) else
  let (ok, fs) :=
    if cert.PrivateKey.length > 0 then
      fsWrite ops fs (dir ++ ["privkey.pem"]) cert.PrivateKey
    else (true, fs)
  if !ok then (.error "write privkey.pem failed", fs) else
  let latest : Path := [baseDir, "archive", domain, timestamp]
  if !(ops.mkdirOk latest) then (.error "mkdir archive failed", fs) else
  let (_, fs) := fsWrite ops fs (latest ++ ["cert.pem"]) cert.Certificate
  let (_, fs) := fsWrite ops fs (latest ++ ["chain.pem"]) cert.IssuerCertificate
  let (_, fs) := fsWrite ops fs (latest ++ ["fullchain.pem"])
      (cert.Certificate ++ cert.IssuerCertificate)
  let (_, fs) := fsWrite ops fs (latest ++ ["privkey.pem"]) cert.PrivateKey
  (.ok (baseDir ++ "/live/" ++ domain), fs)

/-! ## Renewal engine (`internal/renewal/renewal.go`) -/

/-- `renewal.Config`: one persisted renewal configuration per domain. -/
structure Config where
  Domain : String
  Email : String
  Server : String
  Method : String
  Webroot : String
  DNSPlugin : String
  KeyType : String
  KeySize : Int
  Targets : List String
  BaseDir : String
  Provider : String
deriving Repr, DecidableEq

/-- 30 days as Go `time.Duration` nanoseconds (`30*24*time.Hour`). -/
def thirtyDays : Int := 30 * 24 * 60 * 60 * 1000000000

/-- `renewal.due`: reads the cert at the live path under the DEFAULT base
directory (`store.LoadCertPaths(store.DefaultBaseDir(), domain)`), is due
on read failure, on parse failure, and when less than 30 days remain.
`parseExpiry` stands for `store.ParseCertExpiry` (its `pem`/`x509`
internals are opaque to this function); `now` is the clock behind
`time.Until`. -/
def due (fs : FS) (parseExpiry : Bytes → Except String Int) (now : Int)
    (home : Option String) (domain : String) : Bool :=
  let certPath := (LoadCertPaths (DefaultBaseDir home) domain).1
  match fs certPath with
  | none => true
  | some b =>
    match parseExpiry b with
    | .error _ => true
    | .ok exp => decide (exp - now < thirtyDays)

/-- One entry produced by `filepath.WalkDir` over the renewal directory:
its file name, whether it is a directory, and the outcome of
`renewal.load` on it (reading + YAML-parsing the file). -/
structure Entry where
  name : String
  isDir : Bool
  loadResult : Except String Config

/-- The loop body of `renewal.RunAll`, accumulating the `errs` slice: skip
directories and non-`.yaml` names, record a `name: err` entry on load
failure, skip configs not due, and record a `domain: err` entry when
`renewOne` fails.  `renew` stands for `renewOne` (network + store). -/
def runAllStep (dueF : String → Bool) (renew : Config → Except String Unit)
    (errs : List String) (e : Entry) : List String :=
  if e.isDir || !(String.endsWith e.name ".yaml") then errs
  else
    match e.loadResult with
    | .error m => errs ++ [e.name ++ ": " ++ m]
    | .ok cfg =>
      if !(dueF cfg.Domain) then errs
      else
        match renew cfg with
        | .ok _ => errs
        | .error m => errs ++ [cfg.Domain ++ ": " ++ m]

/-- `renewal.RunAll`: walk every entry, collect per-item failures, and
return a single aggregated error iff any were collected. -/
def RunAll (entries : List Entry) (dueF : String → Bool)
    (renew : Config → Except String Unit) : Except String Unit :=
  let errs := entries.foldl (runAllStep dueF renew) []
  if errs = [] then .ok ()
  else .error ("some renewals failed: " ++ String.intercalate "; " errs)

/-- The failure entry (if any) that `RunAll` records for one walked
entry — `none` exactly when the entry is skipped or renews cleanly. -/
def entryFailure (dueF : String → Bool)
    (renew : Config → Except String Unit) (e : Entry) : Option String :=
  if e.isDir || !(String.endsWith e.name ".yaml") then none
  else
    match e.loadResult with
    | .error m => some (e.name ++ ": " ++ m)
    | .ok cfg =>
      if !(dueF cfg.Domain) then none
      else
        match renew cfg with
        | .ok _ => none
        | .error m => some (cfg.Domain ++ ": " ++ m)

/-! ## Account / credential store (`AccountManager` in the store package)

The credentials file holds one flat JSON object whose values are strings;
we model `json.MarshalIndent` / `json.Unmarshal` at the level of that
object (an association list of key/value pairs), with Go's `omitempty`
semantics: tagged fields are omitted when empty, and a missing key
unmarshals to the zero value `""`.  File writes in this store are modelled
as always succeeding (the round-trip claims presuppose a successful save).
-/

/-- `store.AccountCredentials`. -/
structure AccountCredentials where
  Email : String
  Server : String
  EABKID : String
  EABHMACKey : String
  HMACID : String
  HMACKey : String
  APIKey : String
  AccountID : String
  OrganizationID : String
  Provider : String
deriving Repr, DecidableEq

/-- A flat JSON object of string fields. -/
abbrev JsonObj := List (String × String)

/-- The account store's file system: path → stored JSON object. -/
abbrev AccFS := Path → Option JsonObj

/-- One `omitempty`-tagged JSON field: present iff the value is
non-empty. -/
def optField (key v : String) : JsonObj :=
  if v = "" then [] else [(key, v)]

/-- `json.MarshalIndent` on an `AccountCredentials`, at object level:
`email`, `server`, `provider` always present, all other fields
`omitempty`, in struct order. -/
def encodeCreds (c : AccountCredentials) : JsonObj :=
  [("email", c.Email), ("server", c.Server)]
  ++ optField "eab_kid" c.EABKID
  ++ optField "eab_hmac_key" c.EABHMACKey
  ++ optField "hmac_id" c.HMACID
  ++ optField "hmac_key" c.HMACKey
  ++ optField "api_key" c.APIKey
  ++ optField "account_id" c.AccountID
  ++ optField "organization_id" c.OrganizationID
  ++ [("provider", c.Provider)]

/-- Field lookup with Go's zero value for a missing key. -/
def lookupD (obj : JsonObj) (key : String) : String :=
  (obj.lookup key).getD ""

/-- `json.Unmarshal` into `AccountCredentials`, at object level. -/
def decodeCreds (obj : JsonObj) : AccountCredentials :=
  { Email := lookupD obj "email"
    Server := lookupD obj "server"
    EABKID := lookupD obj "eab_kid"
    EABHMACKey := lookupD obj "eab_hmac_key"
    HMACID := lookupD obj "hmac_id"
    HMACKey := lookupD obj "hmac_key"
    APIKey := lookupD obj "api_key"
    AccountID := lookupD obj "account_id"
    OrganizationID := lookupD obj "organization_id"
    Provider := lookupD obj "provider" }

/-- The path of the credentials file for `(provider, email)` under a base
directory: `{base}/accounts/{provider}/{email}/credentials.json`. -/
def credsPath (baseDir provider email : String) : Path :=
  [baseDir, "accounts", provider, email, "credentials.json"]

/-- `AccountManager.SaveAccount`: writes the marshalled record under the
directory named by the RECORD's provider tag. -/
def SaveAccount (afs : AccFS) (baseDir email : String)
    (creds : AccountCredentials) : AccFS :=
  fun p =>
    if p = credsPath baseDir creds.Provider email then some (encodeCreds creds)
    else afs p

/-- `AccountManager.LoadAccount`: reads and unmarshals the credentials
file under the REQUESTED provider's directory. -/
def LoadAccount (afs : AccFS) (baseDir email provider : String) :
    Except String AccountCredentials :=
  match afs (credsPath baseDir provider email) with
  | none => .error "file not found"
  | some obj => .ok (decodeCreds obj)

/-- `acme.DigiCertConfig` (the REST provider's configuration). -/
structure DigiCertConfig where
  ServerURL : String
  HMACID : String
  HMACKey : String
  APIKey : String
  AccountID : String
  OrganizationID : String
deriving Repr, DecidableEq

/-- `acme.DigiCertEABConfig` (the fields `GetDigiCertACMEConfig` sets). -/
structure DigiCertEABConfig where
  ServerURL : String
  EABKID : String
  EABHMACKey : String
  Email : String
  BaseDir : String
deriving Repr, DecidableEq

/-- `AccountManager.GetDigiCertConfig`: load the account stored under
provider directory `digicert`, reject it when its provider TAG is not
`digicert`, otherwise build the REST config. -/
def GetDigiCertConfig (afs : AccFS) (baseDir email : String) :
    Except String DigiCertConfig :=
  match LoadAccount afs baseDir email "digicert" with
  | .error e => .error e
  | .ok creds =>
    if creds.Provider ≠ "digicert" then
      .error "account is not a DigiCert account"
    else
      .ok { ServerURL := creds.Server, HMACID := creds.HMACID,
            HMACKey := creds.HMACKey, APIKey := creds.APIKey,
            AccountID := creds.AccountID,
            OrganizationID := creds.OrganizationID }

/-- `AccountManager.GetDigiCertACMEConfig`: same provider-tag check,
building the EAB config. -/
def GetDigiCertACMEConfig (afs : AccFS) (baseDir email : String) :
    Except String DigiCertEABConfig :=
  match LoadAccount afs baseDir email "digicert" with
  | .error e => .error e
  | .ok creds =>
    if creds.Provider ≠ "digicert" then
      .error "account is not a DigiCert account"
    else
      .ok { ServerURL := creds.Server, EABKID := creds.EABKID,
            EABHMACKey := creds.EABHMACKey, Email := creds.Email,
            BaseDir := baseDir }

/-! ## DigiCert REST provider (`internal/acme/digicert.go`) -/

/-- `acme.DigiCertCertificate` (the certificate-status response;
`ExpiresAt` as Unix nanoseconds). -/
structure DigiCertCertificate where
  ID : String
  Status : String
  ExpiresAt : Int
  ServerCert : String
  IntermediateCert : String
  PrivateKey : String
deriving Repr, DecidableEq

/-- Does a poll outcome keep the loop polling? — a successful
`getCertificate` whose status is neither `issued` nor `failed`. -/
def pendingPoll (r : Except String DigiCertCertificate) : Bool :=
  match r with
  | .ok c => !(c.Status == "issued") && !(c.Status == "failed")
  | .error _ => false

/-- The polling loop of `waitForCertificate`, instrumented with the
number of `getCertificate` calls made.  `get i` is the outcome of the
`i`-th poll (the network is a parameter); `i` is the loop counter and
`fuel` the remaining iterations of `for i := 0; i < 30; i++`. -/
def waitLoop (get : Nat → Except String DigiCertCertificate) :
    Nat → Nat → (Except String DigiCertCertificate) × Nat
  | i, 0 => (.error "timeout waiting for certificate", i)
  | i, fuel + 1 =>
    match get i with
    | .error e => (.error e, i + 1)
    | .ok c =>
      if c.Status == "issued" then (.ok c, i + 1)
      else if c.Status == "failed" then
        (.error "certificate issuance failed", i + 1)
      else waitLoop get (i + 1) fuel

/-- `DigiCertProvider.waitForCertificate`: up to 30 polls, returning the
result together with how many polls were made. -/
def waitForCertificate (get : Nat → Except String DigiCertCertificate) :
    (Except String DigiCertCertificate) × Nat :=
  waitLoop get 0 30

/-! ### SHA-256, HMAC and hex (`crypto/sha256`, `crypto/hmac`,
`encoding/hex`), implemented over `Nat` bytes and 32-bit words -/

/-- Truncate to a 32-bit word. -/
def w32 (n : Nat) : Nat := n % 4294967296

/-- Right-rotation of a 32-bit word (argument assumed `< 2^32`). -/
def rotr (n x : Nat) : Nat :=
  (x >>> n) + (x % (1 <<< n)) * (1 <<< (32 - n))

/-- The 64 SHA-256 round constants. -/
def sha256K : List Nat :=
  [1116352408, 1899447441, 3049323471, 3921009573,
   961987163, 1508970993, 2453635748, 2870763221,
   3624381080, 310598401, 607225278, 1426881987,
   1925078388, 2162078206, 2614888103, 3248222580,
   3835390401, 4022224774, 264347078, 604807628,
   770255983, 1249150122, 1555081692, 1996064986,
   2554220882, 2821834349, 2952996808, 3210313671,
   3336571891, 3584528711, 113926993, 338241895,
   666307205, 773529912, 1294757372, 1396182291,
   1695183700, 1986661051, 2177026350, 2456956037,
   2730485921, 2820302411, 3259730800, 3345764771,
   3516065817, 3600352804, 4094571909, 275423344,
   430227734, 506948616, 659060556, 883997877,
   958139571, 1322822218, 1537002063, 1747873779,
   1955562222, 2024104815, 2227730452, 2361852424,
   2428436474, 2756734187, 3204031479, 3329325298]

/-- SHA-256 initial hash state. -/
def sha256H0 : List Nat :=
  [1779033703, 3144134277, 1013904242, 2773480762,
   1359893119, 2600822924, 528734635, 1541459225]

/-- Big-endian 64-bit length encoding. -/
def be64 (n : Nat) : Bytes :=
  [(n >>> 56) % 256, (n >>> 48) % 256, (n >>> 40) % 256, (n >>> 32) % 256,
   (n >>> 24) % 256, (n >>> 16) % 256, (n >>> 8) % 256, n % 256]

/-- SHA-256 padding: `0x80`, zeros to 56 mod 64, then the bit length. -/
def padMsg (msg : Bytes) : Bytes :=
  let len := msg.length
  msg ++ [0x80] ++ List.replicate ((64 - (len + 9) % 64) % 64) 0
      ++ be64 (len * 8)

/-- Group bytes into big-endian 32-bit words. -/
def bytesToWords : Bytes → List Nat
  | a :: b :: c :: d :: rest =>
    (a * 16777216 + b * 65536 + c * 256 + d) :: bytesToWords rest
  | _ => []

/-- Split a byte string into 64-byte blocks (structural recursion on a
fuel bound of one block per remaining byte). -/
def toBlocksAux : Nat → Bytes → List Bytes
  | 0, _ => []
  | _, [] => []
  | fuel + 1, l => l.take 64 :: toBlocksAux fuel (l.drop 64)

/-- Split a byte string into 64-byte blocks. -/
def toBlocks (l : Bytes) : List Bytes :=
  toBlocksAux l.length l

/-- Extend 16 message-schedule words to 64. -/
def extendSchedule (ws : Array Nat) : Array Nat :=
  (List.range 48).foldl (fun w _ =>
    let i := w.size
    let w16 := w.getD (i - 16) 0
    let w15 := w.getD (i - 15) 0
    let w7 := w.getD (i - 7) 0
    let w2 := w.getD (i - 2) 0
    let s0 := rotr 7 w15 ^^^ rotr 18 w15 ^^^ (w15 >>> 3)
    let s1 := rotr 17 w2 ^^^ rotr 19 w2 ^^^ (w2 >>> 10)
    w.push (w32 (w16 + s0 + w7 + s1))) ws

/-- One SHA-256 compression round on the eight working registers. -/
def sha256Round (wt kt : Nat) (s : List Nat) : List Nat :=
  let a := s.getD 0 0
  let b := s.getD 1 0
  let c := s.getD 2 0
  let d := s.getD 3 0
  let e := s.getD 4 0
  let f := s.getD 5 0
  let g := s.getD 6 0
  let h := s.getD 7 0
  let S1 := rotr 6 e ^^^ rotr 11 e ^^^ rotr 25 e
  let ch := (e &&& f) ^^^ ((4294967295 - e) &&& g)
  let temp1 := w32 (h + S1 + ch + kt + wt)
  let S0 := rotr 2 a ^^^ rotr 13 a ^^^ rotr 22 a
  let maj := (a &&& b) ^^^ (a &&& c) ^^^ (b &&& c)
  let temp2 := w32 (S0 + maj)
  [w32 (temp1 + temp2), a, b, c, w32 (d + temp1), e, f, g]

/-- Compress one 64-byte block into the running hash state. -/
def processBlock (h : List Nat) (block : Bytes) : List Nat :=
  let ws := extendSchedule (Array.mk (bytesToWords block))
  let s := (List.range 64).foldl
    (fun s t => sha256Round (ws.getD t 0) (sha256K.getD t 0) s) h
  List.zipWith (fun x y => w32 (x + y)) h s

/-- Serialize hash-state words back to big-endian bytes. -/
def wordsToBytes (ws : List Nat) : Bytes :=
  ws.flatMap (fun w =>
    [(w >>> 24) % 256, (w >>> 16) % 256, (w >>> 8) % 256, w % 256])

/-- SHA-256 of a byte string. -/
def sha256 (msg : Bytes) : Bytes :=
  wordsToBytes ((toBlocks (padMsg msg)).foldl processBlock sha256H0)

/-- HMAC-SHA-256 (`hmac.New(sha256.New, key)` + `Write` + `Sum`). -/
def hmacSha256 (key msg : Bytes) : Bytes :=
  let key := if key.length > 64 then sha256 key else key
  let key := key ++ List.replicate (64 - key.length) 0
  let ipad := key.map (fun b => b ^^^ 0x36)
  let opad := key.map (fun b => b ^^^ 0x5c)
  sha256 (opad ++ sha256 (ipad ++ msg))

/-- One lowercase hex digit. -/
def hexChar (n : Nat) : Char :=
  if n < 10 then Char.ofNat (48 + n) else Char.ofNat (87 + n)

/-- `hex.EncodeToString`. -/
def bytesToHex (bs : Bytes) : String :=
  String.mk (bs.flatMap (fun b => [hexChar (b / 16), hexChar (b % 16)]))

/-- UTF-8 encoding of one character. -/
def utf8EncodeChar (c : Char) : Bytes :=
  let n := c.toNat
  if n < 128 then [n]
  else if n < 2048 then [192 + n / 64, 128 + n % 64]
  else if n < 65536 then
    [224 + n / 4096, 128 + (n / 64) % 64, 128 + n % 64]
  else
    [240 + n / 262144, 128 + (n / 4096) % 64, 128 + (n / 64) % 64,
     128 + n % 64]

/-- The UTF-8 bytes of a string (`[]byte(s)` in Go). -/
def utf8Bytes (s : String) : Bytes :=
  s.data.flatMap utf8EncodeChar

/-! ### Request signing (`DigiCertProvider.signRequest`) -/

/-- The string signed by `signRequest`: `METHOD\nPATH` without a body,
`METHOD\nPATH\nBODY` with one.  The timestamp is NOT part of it. -/
def sigStringOf (method path : String) (body : Option String) : String :=
  match body with
  | some b => method ++ "\n" ++ path ++ "\n" ++ b
  | none => method ++ "\n" ++ path

/-- `signRequest`: the headers set on the outgoing request.  `timestamp`
stands for `time.Now().UTC().Format(time.RFC3339)` at the moment of the
call; the signature is the hex HMAC-SHA-256 of the signature string under
the account's HMAC key, and the HMAC-id header is set only when
non-empty. -/
def signRequestHeaders (cfg : DigiCertConfig) (method path : String)
    (body : Option String) (timestamp : String) : List (String × String) :=
  let signature :=
    bytesToHex (hmacSha256 (utf8Bytes cfg.HMACKey)
      (utf8Bytes (sigStringOf method path body)))
  [("X-DC-DEVKEY", cfg.APIKey), ("X-DC-TIMESTAMP", timestamp),
   ("X-DC-SIGNATURE", signature)]
  ++ (if cfg.HMACID ≠ "" then [("X-DC-HMAC-ID", cfg.HMACID)] else [])

/-- Header lookup (`http.Header.Get`, for the headers set here). -/
def getHeader (headers : List (String × String)) (key : String) :
    Option String :=
  headers.lookup key

/-! ## Key generation (`internal/acme/manager.go`) -/

/-- The key material `acme.generateKey` produces: an RSA key of a bit
size, or an ECDSA key on a named curve. -/
inductive GeneratedKey where
  | rsa (bits : Int)
  | ecdsa (curve : String)
deriving Repr, DecidableEq

/-- `acme.generateKey`: rsa sizes below 2048 are raised to 2048; ecdsa
size 384 selects P-384 and any other size falls back to P-256; any other
kind is an error. -/
def generateKey (kind : String) (size : Int) : Except String GeneratedKey :=
  if kind = "rsa" then
    .ok (.rsa (if size < 2048 then 2048 else size))
  else if kind = "ecdsa" then
    .ok (.ecdsa (if size = 384 then "P-384" else "P-256"))
  else
    .error ("unknown key type: " ++ kind)

/-! ## Concrete instances used to exercise the theorems -/

/-- One day of Go `time.Duration` nanoseconds. -/
def dayNs : Int := 24 * 60 * 60 * 1000000000

/-- An empty file system. -/
def fsEmpty : FS := fun _ => none

/-- The live cert path for `example.com` under the fallback base dir. -/
def certPathEx : Path := ["/var/lib/trusttls", "live", "example.com", "cert.pem"]

/-- A file system holding one (opaque) cert file at `certPathEx`. -/
def fsWithCert : FS := fun p => if p = certPathEx then some [0] else none

/-- A file system that also has a cert under a custom base dir. -/
def fsWithCustomCert : FS := fun p =>
  if p = certPathEx then some [0]
  else if p = ["/custom", "live", "example.com", "cert.pem"] then some [9]
  else none

/-- An expiry parser that always fails (not valid PEM). -/
def parseFail : Bytes → Except String Int := fun _ => .error "no pem block"

/-- An expiry parser returning a fixed `NotAfter`. -/
def parseAt (t : Int) : Bytes → Except String Int := fun _ => .ok t

/-- A renewal config whose `BaseDir` is NOT the default. -/
def cfgCustom : Config :=
  { Domain := "example.com", Email := "ops@example.com", Server := "",
    Method := "http-01", Webroot := "/srv/www", DNSPlugin := "",
    KeyType := "rsa", KeySize := 2048, Targets := [], BaseDir := "/custom",
    Provider := "letsencrypt" }

/-- A certificate resource with distinct leaf/issuer/key bytes. -/
def certEx : CertResource :=
  { Domain := "example.com", Certificate := [1, 2], PrivateKey := [3],
    IssuerCertificate := [4, 5] }

/-- Store ops where only the archive directory creation fails. -/
def opsArchiveMkdirFails : FSOps :=
  { mkdirOk := fun p =>
      decide (p ≠ ["/base", "archive", "example.com", "20240101-000000"]),
    writeOk := fun _ => true }

/-- Store ops where every archive file write fails (directory creations
and live writes succeed). -/
def opsArchiveWritesFail : FSOps :=
  { mkdirOk := fun _ => true,
    writeOk := fun p => decide (p.getD 1 "" ≠ "archive") }

/-- Store ops where everything succeeds. -/
def opsAllOk : FSOps :=
  { mkdirOk := fun _ => true, writeOk := fun _ => true }

/-- A still-pending DigiCert order-status response. -/
def pendingCert : DigiCertCertificate :=
  { ID := "ord-1", Status := "pending", ExpiresAt := 0, ServerCert := "",
    IntermediateCert := "", PrivateKey := "" }

/-- An issued DigiCert order-status response. -/
def issuedCert : DigiCertCertificate :=
  { ID := "ord-1", Status := "issued", ExpiresAt := 0,
    ServerCert := "leaf", IntermediateCert := "issuer", PrivateKey := "" }

/-- A failed DigiCert order-status response. -/
def failedCert : DigiCertCertificate :=
  { ID := "ord-1", Status := "failed", ExpiresAt := 0, ServerCert := "",
    IntermediateCert := "", PrivateKey := "" }

/-- A poll sequence that never leaves pending. -/
def pollsPending : Nat → Except String DigiCertCertificate :=
  fun _ => .ok pendingCert

/-- A poll sequence that reports issued on the third poll. -/
def pollsIssuedAt2 : Nat → Except String DigiCertCertificate :=
  fun n => if n < 2 then .ok pendingCert else .ok issuedCert

/-- A poll sequence that reports failed on the fourth poll. -/
def pollsFailedAt3 : Nat → Except String DigiCertCertificate :=
  fun n => if n < 3 then .ok pendingCert else .ok failedCert

/-- A DigiCert REST config with a non-empty HMAC id. -/
def cfgDC : DigiCertConfig :=
  { ServerURL := "https://api.example.test", HMACID := "hmac-1",
    HMACKey := "secret", APIKey := "devkey", AccountID := "acct-1",
    OrganizationID := "" }

/-- Credentials whose provider tag is `letsencrypt`. -/
def credsLE : AccountCredentials :=
  { Email := "user@example.com", Server := "https://acme.example.test",
    EABKID := "", EABHMACKey := "", HMACID := "", HMACKey := "",
    APIKey := "", AccountID := "", OrganizationID := "",
    Provider := "letsencrypt" }

/-- An account store whose `digicert` slot holds a record tagged
`letsencrypt`. -/
def afsMismatch : AccFS := fun p =>
  if p = credsPath "/base" "digicert" "user@example.com" then
    some (encodeCreds credsLE)
  else none

/-! ## Theorems -/

/-- Association-list lookup distributes over append. -/
lemma lookup_append (k : String) (l1 l2 : JsonObj) :
    List.lookup k (l1 ++ l2) =
      (match List.lookup k l1 with
       | some v => some v
       | none => List.lookup k l2) := by
  induction l1 with
  | nil => simp [List.lookup]
  | cons a l ih =>
    obtain ⟨k', v⟩ := a
    by_cases h : (k == k') = true <;> simp [List.lookup, h, ih]

/-- Looking an `omitempty` field up under its own key. -/
lemma lookup_optField_self (k v : String) :
    List.lookup k (optField k v) = if v = "" then none else some v := by
  by_cases hv : v = "" <;> simp [optField, hv, List.lookup]

/-- Looking an `omitempty` field up under a different key. -/
lemma lookup_optField_ne (k k' v : String) (h : (k' == k) = false) :
    List.lookup k' (optField k v) = none := by
  by_cases hv : v = "" <;> simp [optField, hv, List.lookup, h]

/-- A present-iff-non-empty field read with zero-value default. -/
lemma getD_if_empty (v : String) :
    (if v = "" then none else some v).getD "" = v := by
  split <;> simp_all

/-- The same read, under the residual match `lookup_append` leaves. -/
lemma matchOpt_getD (v : String) :
    (match (if v = "" then none else some v) with
     | some w => some w
     | none => (none : Option String)).getD "" = v := by
  by_cases hv : v = "" <;> simp [hv]

/-- Object-level marshal/unmarshal round trip: every field survives,
whether or not its `omitempty` slot is present. -/
theorem decodeCreds_encodeCreds (c : AccountCredentials) :
    decodeCreds (encodeCreds c) = c := by
  cases c
  simp [decodeCreds, encodeCreds, lookupD, lookup_append, List.lookup,
    lookup_optField_self, lookup_optField_ne, getD_if_empty, matchOpt_getD]

/-- C7: saving then loading `AccountCredentials` for the same
(provider, email) on the same base directory yields the saved record,
field for field. -/
theorem saveAccount_loadAccount_roundtrip (afs : AccFS)
    (baseDir email : String) (creds : AccountCredentials) :
    LoadAccount (SaveAccount afs baseDir email creds) baseDir email
      creds.Provider = .ok creds := by
  simp [LoadAccount, SaveAccount, decodeCreds_encodeCreds]

/-- C6: resolving the provider-specific DigiCert configuration fails with
the wrong-provider error whenever the record stored in the `digicert`
slot carries a provider tag other than `digicert` — for both
`GetDigiCertConfig` and `GetDigiCertACMEConfig`. -/
theorem getDigiCertConfig_wrong_provider (afs : AccFS)
    (baseDir email : String) (creds : AccountCredentials)
    (hstore : afs (credsPath baseDir "digicert" email)
      = some (encodeCreds creds))
    (hprov : creds.Provider ≠ "digicert") :
    GetDigiCertConfig afs baseDir email
      = .error "account is not a DigiCert account"
  ∧ GetDigiCertACMEConfig afs baseDir email
      = .error "account is not a DigiCert account" := by
  constructor <;>
    simp [GetDigiCertConfig, GetDigiCertACMEConfig, LoadAccount, hstore,
      decodeCreds_encodeCreds, hprov]

/-- A record tagged `letsencrypt` sitting in the `digicert` slot is
rejected with the wrong-provider error by both accessors. -/
theorem getDigiCertConfig_wrong_provider_witness :
    GetDigiCertConfig afsMismatch "/base" "user@example.com"
      = .error "account is not a DigiCert account"
  ∧ GetDigiCertACMEConfig afsMismatch "/base" "user@example.com"
      = .error "account is not a DigiCert account" :=
  getDigiCertConfig_wrong_provider afsMismatch "/base" "user@example.com"
    credsLE (by rfl) (by decide)

/-- C2: `due` is true when the stored certificate cannot be read, true
when its contents fail to parse, and otherwise true exactly when less
than 30 days remain until the parsed expiry. -/
theorem due_spec (fs : FS) (parseExpiry : Bytes → Except String Int)
    (now : Int) (home : Option String) (domain : String) :
    (fs ((LoadCertPaths (DefaultBaseDir home) domain).1) = none →
       due fs parseExpiry now home domain = true)
  ∧ (∀ (b : Bytes) (e : String),
       fs ((LoadCertPaths (DefaultBaseDir home) domain).1) = some b →
       parseExpiry b = .error e →
       due fs parseExpiry now home domain = true)
  ∧ (∀ (b : Bytes) (exp : Int),
       fs ((LoadCertPaths (DefaultBaseDir home) domain).1) = some b →
       parseExpiry b = .ok exp →
       (due fs parseExpiry now home domain = true
         ↔ exp - now < thirtyDays)) := by
  refine ⟨fun h => ?_, fun b e hb hp => ?_, fun b exp hb hp => ?_⟩ <;>
    simp [due, *]

/-- The four `due` scenarios of the claim at concrete inputs: missing
file, unparsable file, expiry 29 days away, expiry 31 days away. -/
theorem due_spec_witness :
    due fsEmpty parseFail 0 none "example.com" = true
  ∧ due fsWithCert parseFail 0 none "example.com" = true
  ∧ due fsWithCert (parseAt (29 * dayNs)) 0 none "example.com" = true
  ∧ due fsWithCert (parseAt (31 * dayNs)) 0 none "example.com" = false := by
  refine ⟨(due_spec fsEmpty parseFail 0 none "example.com").1 rfl,
    (due_spec fsWithCert parseFail 0 none "example.com").2.1 [0]
      "no pem block" (by decide) rfl,
    ((due_spec fsWithCert (parseAt (29 * dayNs)) 0 none
      "example.com").2.2 [0] (29 * dayNs) (by decide) rfl).mpr (by decide),
    ?_⟩
  have h := (due_spec fsWithCert (parseAt (31 * dayNs)) 0 none
    "example.com").2.2 [0] (31 * dayNs) (by decide) rfl
  have hn : ¬ (31 * dayNs - 0 < thirtyDays) := by decide
  cases hd : due fsWithCert (parseAt (31 * dayNs)) 0 none "example.com"
  · rfl
  · exact absurd (h.mp hd) hn

/-- C10: the due decision never consults the config's `BaseDir`: it is
unchanged under any `BaseDir`, the consulted path lies under the DEFAULT
base directory, and the decision depends on the file system only through
that default-location path. -/
theorem due_ignores_baseDir (fs : FS)
    (parseExpiry : Bytes → Except String Int) (now : Int)
    (home : Option String) (c : Config) :
    (∀ b : String,
       due fs parseExpiry now home ({ c with BaseDir := b } : Config).Domain
         = due fs parseExpiry now home c.Domain)
  ∧ (LoadCertPaths (DefaultBaseDir home) c.Domain).1
      = [DefaultBaseDir home, "live", c.Domain, "cert.pem"]
  ∧ (∀ fs2 : FS,
       fs2 [DefaultBaseDir home, "live", c.Domain, "cert.pem"]
         = fs [DefaultBaseDir home, "live", c.Domain, "cert.pem"] →
       due fs2 parseExpiry now home c.Domain
         = due fs parseExpiry now home c.Domain) := by
  refine ⟨fun _ => rfl, rfl, fun fs2 h => ?_⟩
  simp [due, LoadCertPaths, h]

/-- A config pointing at base dir `/custom` is judged by the default
location's certificate: changing its `BaseDir` or the custom-location
file changes nothing. -/
theorem due_ignores_baseDir_witness :
    due fsWithCert parseFail 0 none
        ({ cfgCustom with BaseDir := "/elsewhere" } : Config).Domain
      = due fsWithCert parseFail 0 none cfgCustom.Domain
  ∧ due fsWithCustomCert parseFail 0 none cfgCustom.Domain
      = due fsWithCert parseFail 0 none cfgCustom.Domain :=
  ⟨(due_ignores_baseDir fsWithCert parseFail 0 none cfgCustom).1
      "/elsewhere",
   (due_ignores_baseDir fsWithCert parseFail 0 none cfgCustom).2.2
      fsWithCustomCert (by decide)⟩

/-- Each walked entry appends its failure entry (if any) to the
accumulated list and never aborts the fold. -/
lemma runAllStep_eq (dueF : String → Bool)
    (renew : Config → Except String Unit) (errs : List String)
    (e : Entry) :
    runAllStep dueF renew errs e
      = errs ++ (entryFailure dueF renew e).toList := by
  unfold runAllStep entryFailure
  split
  · simp
  · split
    · simp
    · split
      · simp
      · split <;> simp

/-- The `RunAll` fold equals the starting list extended with one failure
entry per failing walked entry, in walk order. -/
lemma runAll_foldl_eq (dueF : String → Bool)
    (renew : Config → Except String Unit) :
    ∀ (entries : List Entry) (errs : List String),
      entries.foldl (runAllStep dueF renew) errs
        = errs ++ entries.filterMap (entryFailure dueF renew) := by
  intro entries
  induction entries with
  | nil => simp
  | cons e rest ih =>
    intro errs
    rw [List.foldl_cons, ih, runAllStep_eq, List.filterMap_cons]
    cases entryFailure dueF renew e <;> simp

/-- C1: `RunAll` processes every walked entry, succeeds iff no processed
entry fails, and otherwise returns the single aggregated error listing
each failing item (`name: cause` for a config that fails to load,
`domain: cause` for a due config whose renewal fails) — per-item failures
never abort the batch. -/
theorem runAll_collects_failures (entries : List Entry)
    (dueF : String → Bool) (renew : Config → Except String Unit) :
    RunAll entries dueF renew
      = (if entries.filterMap (entryFailure dueF renew) = [] then .ok ()
         else .error ("some renewals failed: " ++ String.intercalate "; "
            (entries.filterMap (entryFailure dueF renew))))
  ∧ (RunAll entries dueF renew = .ok ()
      ↔ entries.filterMap (entryFailure dueF renew) = []) := by
  have h : RunAll entries dueF renew
      = (if entries.filterMap (entryFailure dueF renew) = [] then .ok ()
         else .error ("some renewals failed: " ++ String.intercalate "; "
            (entries.filterMap (entryFailure dueF renew)))) := by
    unfold RunAll
    rw [runAll_foldl_eq]
    simp
  refine ⟨h, ?_⟩
  rw [h]
  split <;> simp_all

/-- A pending poll advances the loop to the next attempt. -/
lemma waitLoop_step_pending (get : Nat → Except String DigiCertCertificate)
    (i fuel : Nat) (h0 : pendingPoll (get i) = true) :
    waitLoop get i (fuel + 1) = waitLoop get (i + 1) fuel := by
  conv_lhs => unfold waitLoop
  cases hg : get i with
  | error e => rw [hg] at h0; simp [pendingPoll] at h0
  | ok c =>
    rw [hg] at h0
    simp only [pendingPoll, Bool.and_eq_true, Bool.not_eq_true'] at h0
    simp [h0.1, h0.2]

/-- A run of pending polls exhausts its fuel and times out, having
polled once per unit of fuel. -/
lemma waitLoop_all_pending (get : Nat → Except String DigiCertCertificate) :
    ∀ (fuel i : Nat),
      (∀ j, j < fuel → pendingPoll (get (i + j)) = true) →
      waitLoop get i fuel
        = (.error "timeout waiting for certificate", i + fuel) := by
  intro fuel
  induction fuel with
  | zero => intro i _; simp [waitLoop]
  | succ fuel ih =>
    intro i h
    have h0 := h 0 (Nat.succ_pos fuel)
    rw [Nat.add_zero] at h0
    rw [waitLoop_step_pending get i fuel h0]
    rw [ih (i + 1) (fun j hj => by
      have := h (j + 1) (Nat.succ_lt_succ hj)
      rwa [show i + (j + 1) = i + 1 + j by omega] at this)]
    simp
    omega

/-- If every earlier poll in the window is pending and poll `k` reports
status `issued`, the loop returns that certificate after `k + 1`
polls. -/
lemma waitLoop_first_issued
    (get : Nat → Except String DigiCertCertificate)
    (c : DigiCertCertificate) :
    ∀ (fuel k i : Nat), k < fuel →
      (∀ j, j < k → pendingPoll (get (i + j)) = true) →
      get (i + k) = .ok c → (c.Status == "issued") = true →
      waitLoop get i fuel = (.ok c, i + k + 1) := by
  intro fuel
  induction fuel with
  | zero => intro k i hk; omega
  | succ fuel ih =>
    intro k i hk hpend hget hst
    cases k with
    | zero =>
      rw [Nat.add_zero] at hget
      unfold waitLoop
      rw [hget]
      simp [hst]
    | succ k' =>
      have h0 := hpend 0 (Nat.succ_pos k')
      rw [Nat.add_zero] at h0
      rw [waitLoop_step_pending get i fuel h0]
      rw [ih k' (i + 1) (Nat.lt_of_succ_lt_succ hk)
        (fun j hj => by
          have := hpend (j + 1) (Nat.succ_lt_succ hj)
          rwa [show i + (j + 1) = i + 1 + j by omega] at this)
        (by rwa [show i + 1 + k' = i + (k' + 1) by omega]) hst]
      simp
      omega

/-- If every earlier poll in the window is pending and poll `k` reports
status `failed`, the loop returns the issuance-failed error after
`k + 1` polls. -/
lemma waitLoop_first_failed
    (get : Nat → Except String DigiCertCertificate)
    (c : DigiCertCertificate) :
    ∀ (fuel k i : Nat), k < fuel →
      (∀ j, j < k → pendingPoll (get (i + j)) = true) →
      get (i + k) = .ok c → (c.Status == "issued") = false →
      (c.Status == "failed") = true →
      waitLoop get i fuel
        = (.error "certificate issuance failed", i + k + 1) := by
  intro fuel
  induction fuel with
  | zero => intro k i hk; omega
  | succ fuel ih =>
    intro k i hk hpend hget hstI hstF
    cases k with
    | zero =>
      rw [Nat.add_zero] at hget
      unfold waitLoop
      rw [hget]
      simp [hstI, hstF]
    | succ k' =>
      have h0 := hpend 0 (Nat.succ_pos k')
      rw [Nat.add_zero] at h0
      rw [waitLoop_step_pending get i fuel h0]
      rw [ih k' (i + 1) (Nat.lt_of_succ_lt_succ hk)
        (fun j hj => by
          have := hpend (j + 1) (Nat.succ_lt_succ hj)
          rwa [show i + (j + 1) = i + 1 + j by omega] at this)
        (by rwa [show i + 1 + k' = i + (k' + 1) by omega]) hstI hstF]
      simp
      omega

/-- C5: `waitForCertificate` returns the certificate at the first poll
reporting status `issued`, an issuance-failed error at the first poll
reporting `failed`, keeps polling through any other status, and after 30
polls that all stay pending returns the timeout error — exactly 30
attempts. -/
theorem waitForCertificate_spec
    (get : Nat → Except String DigiCertCertificate) :
    ((∀ i, i < 30 → pendingPoll (get i) = true) →
       waitForCertificate get
         = (.error "timeout waiting for certificate", 30))
  ∧ (∀ (k : Nat) (c : DigiCertCertificate), k < 30 →
       (∀ i, i < k → pendingPoll (get i) = true) →
       get k = .ok c → c.Status = "issued" →
       waitForCertificate get = (.ok c, k + 1))
  ∧ (∀ (k : Nat) (c : DigiCertCertificate), k < 30 →
       (∀ i, i < k → pendingPoll (get i) = true) →
       get k = .ok c → c.Status = "failed" →
       waitForCertificate get
         = (.error "certificate issuance failed", k + 1)) := by
  refine ⟨fun h => ?_, fun k c hk hpend hget hst => ?_,
    fun k c hk hpend hget hst => ?_⟩
  · have := waitLoop_all_pending get 30 0 (fun j hj => by simpa using h j hj)
    simpa [waitForCertificate] using this
  · have := waitLoop_first_issued get c 30 k 0 hk
      (fun j hj => by simpa using hpend j hj) (by simpa using hget)
      (by simp [hst])
    simpa [waitForCertificate] using this
  · have := waitLoop_first_failed get c 30 k 0 hk
      (fun j hj => by simpa using hpend j hj) (by simpa using hget)
      (by simp [hst]) (by simp [hst])
    simpa [waitForCertificate] using this

/-- The three polling scenarios at concrete poll sequences: all-pending
times out in exactly 30 attempts, issued on the third poll returns the
certificate, failed on the fourth poll returns the issuance error. -/
theorem waitForCertificate_spec_witness :
    waitForCertificate pollsPending
      = (.error "timeout waiting for certificate", 30)
  ∧ waitForCertificate pollsIssuedAt2 = (.ok issuedCert, 3)
  ∧ waitForCertificate pollsFailedAt3
      = (.error "certificate issuance failed", 4) :=
  ⟨(waitForCertificate_spec pollsPending).1 (by decide),
   (waitForCertificate_spec pollsIssuedAt2).2.1 2 issuedCert (by decide)
      (by decide) rfl rfl,
   (waitForCertificate_spec pollsFailedAt3).2.2 3 failedCert (by decide)
      (by decide) rfl rfl⟩

/-- C9: rsa sizes below 2048 are silently raised to 2048 and larger
sizes kept; ecdsa size 384 selects P-384 and every other size selects
P-256 without error; any other kind fails with the unknown-key-type
error. -/
theorem generateKey_spec :
    (∀ size : Int, size < 2048 →
       generateKey "rsa" size = .ok (.rsa 2048))
  ∧ (∀ size : Int, 2048 ≤ size →
       generateKey "rsa" size = .ok (.rsa size))
  ∧ generateKey "ecdsa" 384 = .ok (.ecdsa "P-384")
  ∧ (∀ size : Int, size ≠ 384 →
       generateKey "ecdsa" size = .ok (.ecdsa "P-256"))
  ∧ (∀ (kind : String) (size : Int), kind ≠ "rsa" → kind ≠ "ecdsa" →
       generateKey kind size = .error ("unknown key type: " ++ kind)) := by
  refine ⟨fun size h => ?_, fun size h => ?_, rfl, fun size h => ?_,
    fun kind size h1 h2 => ?_⟩ <;>
    simp [generateKey, *]

/-- The key-generation defaults at concrete inputs: rsa 1024 raised to
2048, rsa 4096 kept, ecdsa 384 → P-384, ecdsa 256 → P-256, and kind
`ed25519` rejected. -/
theorem generateKey_spec_witness :
    generateKey "rsa" 1024 = .ok (.rsa 2048)
  ∧ generateKey "rsa" 4096 = .ok (.rsa 4096)
  ∧ generateKey "ecdsa" 384 = .ok (.ecdsa "P-384")
  ∧ generateKey "ecdsa" 256 = .ok (.ecdsa "P-256")
  ∧ generateKey "ed25519" 256 = .error "unknown key type: ed25519" :=
  ⟨generateKey_spec.1 1024 (by decide),
   generateKey_spec.2.1 4096 (by decide),
   generateKey_spec.2.2.1,
   generateKey_spec.2.2.2.1 256 (by decide),
   generateKey_spec.2.2.2.2 "ed25519" 256 (by decide) (by decide)⟩

/-- Counterexample to C3 as stated: with all four live artifacts
successfully written, a failure to create the archive directory makes
`SaveCertificate` return an error — not the live path and no error.  The
second conjunct shows the live write had already succeeded. -/
theorem saveCertificate_archive_mkdir_fatal :
    (SaveCertificate opsArchiveMkdirFails fsEmpty "/base" "example.com"
        certEx "20240101-000000").1 = .error "mkdir archive failed"
  ∧ (SaveCertificate opsArchiveMkdirFails fsEmpty "/base" "example.com"
        certEx "20240101-000000").2
        ["/base", "live", "example.com", "fullchain.pem"]
      = some [1, 2, 4, 5] := by
  constructor <;> rfl

/-- C3 amended: once the live artifacts are written AND the archive
directory is created, failures of the four archive file writes are
non-fatal — `SaveCertificate` returns the live directory path and no
error regardless of which archive writes succeed.  (Failure to create
the archive directory itself, by contrast, is fatal, as the
counterexample shows.) -/
theorem saveCertificate_archive_writes_nonfatal (ops : FSOps) (fs : FS)
    (baseDir domain : String) (cert : CertResource) (ts : String)
    (h1 : ops.mkdirOk [baseDir, "live", domain] = true)
    (h2 : ops.writeOk [baseDir, "live", domain, "cert.pem"] = true)
    (h3 : ops.writeOk [baseDir, "live", domain, "chain.pem"] = true)
    (h4 : ops.writeOk [baseDir, "live", domain, "fullchain.pem"] = true)
    (h5 : ops.writeOk [baseDir, "live", domain, "privkey.pem"] = true)
    (h6 : ops.mkdirOk [baseDir, "archive", domain, ts] = true) :
    (SaveCertificate ops fs baseDir domain cert ts).1
      = .ok (baseDir ++ "/live/" ++ domain) := by
  by_cases hp : cert.PrivateKey.length > 0 <;>
    simp [SaveCertificate, fsWrite, h1, h2, h3, h4, h5, h6, hp]

/-- With every archive file write failing (live writes and directory
creations succeeding), the save still reports success with the live
directory path. -/
theorem saveCertificate_archive_writes_nonfatal_witness :
    (SaveCertificate opsArchiveWritesFail fsEmpty "/base" "example.com"
        certEx "20240101-000000").1 = .ok "/base/live/example.com" :=
  saveCertificate_archive_writes_nonfatal opsArchiveWritesFail fsEmpty
    "/base" "example.com" certEx "20240101-000000"
    (by decide) (by decide) (by decide) (by decide) (by decide) (by decide)

/-- C8: when directory creations and writes succeed, the same run leaves
byte-identical `fullchain.pem` content in the live directory and in the
archive snapshot, and in both places it is the leaf bytes followed by
the issuer-chain bytes. -/
theorem saveCertificate_fullchain_identical (ops : FSOps) (fs : FS)
    (baseDir domain : String) (cert : CertResource) (ts : String)
    (hm : ∀ p, ops.mkdirOk p = true) (hw : ∀ p, ops.writeOk p = true) :
    (SaveCertificate ops fs baseDir domain cert ts).2
        [baseDir, "live", domain, "fullchain.pem"]
      = some (cert.Certificate ++ cert.IssuerCertificate)
  ∧ (SaveCertificate ops fs baseDir domain cert ts).2
        [baseDir, "archive", domain, ts, "fullchain.pem"]
      = some (cert.Certificate ++ cert.IssuerCertificate) := by
  by_cases hp : cert.PrivateKey.length > 0 <;>
    constructor <;>
    simp [SaveCertificate, fsWrite, hm, hw, hp]

/-- The identical-fullchain property at a concrete resource and store. -/
theorem saveCertificate_fullchain_identical_witness :
    (SaveCertificate opsAllOk fsEmpty "/base" "example.com" certEx
        "20240101-000000").2
        ["/base", "live", "example.com", "fullchain.pem"]
      = some (certEx.Certificate ++ certEx.IssuerCertificate)
  ∧ (SaveCertificate opsAllOk fsEmpty "/base" "example.com" certEx
        "20240101-000000").2
        ["/base", "archive", "example.com", "20240101-000000",
         "fullchain.pem"]
      = some (certEx.Certificate ++ certEx.IssuerCertificate) :=
  saveCertificate_fullchain_identical opsAllOk fsEmpty "/base"
    "example.com" certEx "20240101-000000"
    (fun _ => rfl) (fun _ => rfl)

set_option maxRecDepth 10000 in
/-- FIPS 180-2 known-answer check for the SHA-256 implementation. -/
theorem sha256_abc_vector :
    bytesToHex (sha256 (utf8Bytes "abc"))
      = "ba7816bf8f01cfea414140de5dae2223b00361a396177a9cb410ff61f20015ad" := by
  decide

set_option maxRecDepth 10000 in
/-- RFC 4231 test case 2 known-answer check for HMAC-SHA-256. -/
theorem hmacSha256_rfc4231_vector :
    bytesToHex (hmacSha256 (utf8Bytes "Jefe")
        (utf8Bytes "what do ya want for nothing?"))
      = "5bdcc146bf60754e6a042426089575c75a003f089d2739839dec58b964ec3843" := by
  decide

/-- The signature header `signRequest` sets: the hex HMAC-SHA-256 of the
signature string — the timestamp argument does not occur in it. -/
lemma getHeader_signature (cfg : DigiCertConfig) (m p : String)
    (b : Option String) (t : String) :
    getHeader (signRequestHeaders cfg m p b t) "X-DC-SIGNATURE"
      = some (bytesToHex (hmacSha256 (utf8Bytes cfg.HMACKey)
          (utf8Bytes (sigStringOf m p b)))) := by
  simp [signRequestHeaders, getHeader, List.lookup]

/-- The timestamp header `signRequest` sets: the formatted clock of this
particular call. -/
lemma getHeader_timestamp (cfg : DigiCertConfig) (m p : String)
    (b : Option String) (t : String) :
    getHeader (signRequestHeaders cfg m p b t) "X-DC-TIMESTAMP"
      = some t := by
  simp [signRequestHeaders, getHeader, List.lookup]

/-- Counterexample to C4 as stated: two requests with identical method,
path, body and HMAC secret, signed at two DIFFERENT wall-clock times,
carry byte-identical hex signature headers — the signature string is
`METHOD\nPATH\nBODY` and never includes the timestamp. -/
theorem signature_identical_across_times_cex :
    ("2024-01-01T00:00:00Z" : String) ≠ "2030-06-15T12:34:56Z"
  ∧ getHeader (signRequestHeaders cfgDC "POST" "/certificates"
        (some "certificate.common_name=example.com")
        "2024-01-01T00:00:00Z") "X-DC-SIGNATURE"
      = getHeader (signRequestHeaders cfgDC "POST" "/certificates"
        (some "certificate.common_name=example.com")
        "2030-06-15T12:34:56Z") "X-DC-SIGNATURE" := by
  refine ⟨by decide, ?_⟩
  rw [getHeader_signature, getHeader_signature]

/-- C4 amended: the timestamp header is generated fresh per request, but
the hex signature header depends only on method, path, body and HMAC
secret, so two calls with identical inputs produce byte-identical
signatures regardless of when they are made. -/
theorem signature_time_independent (cfg : DigiCertConfig) (m p : String)
    (b : Option String) (t1 t2 : String) :
    getHeader (signRequestHeaders cfg m p b t1) "X-DC-TIMESTAMP" = some t1
  ∧ getHeader (signRequestHeaders cfg m p b t2) "X-DC-TIMESTAMP" = some t2
  ∧ getHeader (signRequestHeaders cfg m p b t1) "X-DC-SIGNATURE"
      = getHeader (signRequestHeaders cfg m p b t2) "X-DC-SIGNATURE" := by
  refine ⟨getHeader_timestamp cfg m p b t1, getHeader_timestamp cfg m p b t2, ?_⟩
  rw [getHeader_signature, getHeader_signature]

end TrustTLS
